import Mathlib

/-!
Verification development for the SEED Tech match-scoring and similarity-resolution
engine (`src/api/similarity.py`, `src/api/database.py`, `src/api/scoring.py`,
`src/api/config.py`).

Modelling conventions:
* Python floats are modelled as exact rationals (`ℚ`); the numeric literals of the
  source (0.4, 0.85, 0.8, ...) are exact decimal fractions, so no rounding issue
  arises at the values the theorems mention.
* Python strings are Lean `String`s; the character-level operations of the source
  (`str.lower`, `str.translate` over `string.punctuation`, `str.strip`, list
  sorting of a 2-element string list) are given structural-recursive definitions
  over `String.data` so that every definition evaluates by kernel reduction.
  `Char.toLower` is ASCII-only, like Lean core; Python lower-cases some non-ASCII
  letters too, but no claim depends on lower-casing a non-ASCII capital.
* The durable PostgreSQL cache of `database.py` is a list of rows
  `(table_kind, text1, text2, score, timestamp)` in insertion (id) order; the
  optional Redis tier is absent (`REDIS_URL` unset), as in the default
  configuration.  `ORDER BY timestamp ASC LIMIT k` deletion is modelled by
  deleting, k times, the first-inserted row of minimal timestamp.
* The external OpenAI call of `semantic_similarity_chatgpt` is a parameter
  `oracle : String → Except Unit String`: it receives the exact prompt string and
  either fails (any exception around the HTTP call) or returns the response text.
* Wall-clock `time.time()` is a parameter `now : ℕ`; `MAX_CACHE_ENTRIES` is a
  parameter `maxEntries : ℕ` (`int(MAX_CACHE_ENTRIES * 0.1)` is `maxEntries / 10`,
  exact at the configured value 100000).
-/

namespace SeedTech

/-! ### Text primitives (similarity.py: normalize_text; database.py: sorted pairs) -/

/-- The characters of Python `string.punctuation`. -/
def punctuationChars : List Char :=
  "!\"#$%&\x27()*+,-./:;<=>?@[\\]^_\x60\x7b|\x7d~".data

/-- The characters stripped by Python `str.strip()`. -/
def pyWhitespace : List Char := [' ', '\t', '\n', '\r', '\x0b', '\x0c']

/-- Python `str.strip()` on a character list. -/
def stripChars (l : List Char) : List Char :=
  ((l.dropWhile (· ∈ pyWhitespace)).reverse.dropWhile (· ∈ pyWhitespace)).reverse

/-- similarity.py `normalize_text`: lower-case, drop `string.punctuation`, strip;
falsy (empty) input gives `""`. -/
def normalize_text (text : String) : String :=
  if text = "" then ""
  else String.mk (stripChars ((text.data.map Char.toLower).filter (· ∉ punctuationChars)))

/-- Python `str.lower()` (ASCII letters; see the file header note). -/
def pyLower (s : String) : String := String.mk (s.data.map Char.toLower)

/-- Lexicographic code-point order on character lists, as Python compares strings. -/
def lexLt : List Char → List Char → Bool
  | [], [] => false
  | [], _ :: _ => true
  | _ :: _, [] => false
  | a :: as, b :: bs =>
    if a.toNat < b.toNat then true
    else if b.toNat < a.toNat then false
    else lexLt as bs

/-- Python `sorted([text1, text2])` (database.py, used by cache lookup and save):
swap the pair exactly when the second string is smaller. -/
def sortedPair (a b : String) : String × String :=
  if lexLt b.data a.data then (b, a) else (a, b)

/-- database.py `get_cache_key`: Redis key `f"{cache_type}:{t1}:{t2}"` with the
texts in sorted order. -/
def get_cache_key (cache_type text1 text2 : String) : String :=
  cache_type ++ ":" ++ (sortedPair text1 text2).1 ++ ":" ++ (sortedPair text1 text2).2

/-! ### Durable similarity cache (database.py) -/

/-- One row of a `*_similarity_cache` table: `(text1, text2, score, timestamp)`,
with `UNIQUE(text1, text2)` maintained by the upsert below. -/
structure CacheRow where
  text1 : String
  text2 : String
  score : ℚ
  timestamp : ℕ
deriving DecidableEq, Repr

/-- The durable store: rows tagged by their table kind (`name`, `hard_skills`,
`soft_skills`, `degree_domain`), in insertion (`id`) order. -/
abbrev SimCache := List (String × CacheRow)

/-- Row matches `WHERE text1 = x AND text2 = y` in table `ct`. -/
def rowMatches (ct x y : String) (r : String × CacheRow) : Bool :=
  r.1 == ct && r.2.text1 == x && r.2.text2 == y

/-- The score stored for the (sorted) pair, if any: the `SELECT score` of
`get_similarity_from_cache`. -/
def scoreLookup (cache_type text1 text2 : String) (cache : SimCache) : Option ℚ :=
  (cache.find? (rowMatches cache_type (sortedPair text1 text2).1 (sortedPair text1 text2).2)).map
    (fun r => r.2.score)

/-- The `UPDATE ... SET timestamp = now` refresh performed on a cache hit. -/
def refreshTimestamp (now : ℕ) (ct x y : String) (cache : SimCache) : SimCache :=
  cache.map (fun r => if rowMatches ct x y r then (r.1, { r.2 with timestamp := now }) else r)

/-- database.py `get_similarity_from_cache` (Redis tier absent): sort the pair,
look the row up; on a hit refresh its timestamp and return the score. -/
def get_similarity_from_cache (now : ℕ) (cache_type text1 text2 : String)
    (cache : SimCache) : Option ℚ × SimCache :=
  let p := sortedPair text1 text2
  match cache.find? (rowMatches cache_type p.1 p.2) with
  | some r => (some r.2.score, refreshTimestamp now cache_type p.1 p.2 cache)
  | none => (none, cache)

/-- Timestamps of the rows of one table kind. -/
def typeTimestamps (ct : String) (cache : SimCache) : List ℕ :=
  cache.filterMap (fun r => if r.1 == ct then some r.2.timestamp else none)

/-- Delete the first-inserted row of table `ct` carrying the minimal timestamp
(one step of `DELETE ... ORDER BY timestamp ASC LIMIT k`). -/
def removeOneOldest (ct : String) (cache : SimCache) : SimCache :=
  match typeTimestamps ct cache with
  | [] => cache
  | t :: ts => cache.eraseP (fun r => r.1 == ct && r.2.timestamp == ts.foldl Nat.min t)

/-- Delete the `k` oldest rows of table `ct`. -/
def removeOldest (ct : String) : ℕ → SimCache → SimCache
  | 0, cache => cache
  | Nat.succ k, cache => removeOldest ct k (removeOneOldest ct cache)

/-- Count of rows in table `ct` (`SELECT COUNT(*)`). -/
def countType (ct : String) (cache : SimCache) : ℕ :=
  (cache.filter (fun r => r.1 == ct)).length

/-- `INSERT ... ON CONFLICT (text1, text2) DO UPDATE SET score, timestamp`:
replace the (unique) matching row in place, else append. -/
def upsertRow (ct x y : String) (s : ℚ) (ts : ℕ) : SimCache → SimCache
  | [] => [(ct, ⟨x, y, s, ts⟩)]
  | r :: rest =>
    if rowMatches ct x y r then (ct, ⟨x, y, s, ts⟩) :: rest
    else r :: upsertRow ct x y s ts rest

/-- database.py `save_similarity_to_cache` (Redis tier absent): sort the pair;
if the table already holds at least `maxEntries` rows, evict the oldest
`maxEntries / 10` rows first; then upsert. -/
def save_similarity_to_cache (maxEntries now : ℕ) (cache_type text1 text2 : String)
    (score : ℚ) (cache : SimCache) : SimCache :=
  let p := sortedPair text1 text2
  let c1 := if maxEntries ≤ countType cache_type cache
    then removeOldest cache_type (maxEntries / 10) cache else cache
  upsertRow cache_type p.1 p.2 score now c1

/-! ### Oracle response parsing (similarity.py: `re.search(r"(\d+\.\d+|\d+)", ...)`) -/

/-- Decimal value of a digit run. -/
def digitsToNat (ds : List Char) : ℕ :=
  ds.foldl (fun acc c => 10 * acc + (c.toNat - 48)) 0

/-- First match of `\d+\.\d+|\d+` in the character list, converted by `float(...)`:
at the first digit, take the maximal digit run; if a dot and at least one digit
follow, the match is `\d+\.\d+`, else just the digit run. -/
def findFirstNumberAux : List Char → Option ℚ
  | [] => none
  | c :: cs =>
    if c.isDigit then
      let intDigits := (c :: cs).takeWhile Char.isDigit
      match (c :: cs).dropWhile Char.isDigit with
      | '.' :: rest2 =>
        let fracDigits := rest2.takeWhile Char.isDigit
        if fracDigits.isEmpty then some (digitsToNat intDigits : ℚ)
        else some ((digitsToNat intDigits : ℚ) +
          (digitsToNat fracDigits : ℚ) / (10 : ℚ) ^ fracDigits.length)
      | _ => some (digitsToNat intDigits : ℚ)
    else findFirstNumberAux cs

/-- The first number of the response text (`score_match`), or `none`.
The source's `.replace(",", ".")` on the matched group is the identity, since the
matched group holds only digits and at most one dot. -/
def findFirstNumber (s : String) : Option ℚ := findFirstNumberAux s.data

/-- Python `str.strip()` on a string (applied to the oracle response). -/
def stripString (s : String) : String := String.mk (stripChars s.data)

/-- The score extracted from an oracle response: the first number of the stripped
text, or the neutral default 0.5 when parsing fails. -/
def parsedScore (content : String) : ℚ :=
  match findFirstNumber (stripString content) with
  | some q => q
  | none => 1/2

/-! ### Prompts (similarity.py `semantic_similarity_chatgpt`) -/

/-- The kind-specific prompt templates, with `prompts.get(prompt_type, general)`
fallback.  Apostrophes of the source text appear as `\x27`. -/
def mkPrompt (prompt_type text1 text2 : String) : String :=
  if prompt_type = "hard_skill" then
    "En tant qu\x27expert en recrutement tech, évaluez la similarité entre ces deux compétences techniques " ++
    "sur une échelle de 0 à 1 :\nCompétence 1 : " ++ text1 ++ "\nCompétence 2 : " ++ text2 ++ "\n" ++
    "Si ce sont des compétences identiques ou étroitement liées (comme TypeScript et JavaScript), " ++
    "donnez un score élevé (>0.8). Si ce sont des compétences fondamentalement différentes " ++
    "(comme Python et Photoshop), donnez un score bas (<0.3). " ++
    "Tenez compte des relations exactes entre langages de programmation. " ++
    "Répondez uniquement par le score numérique."
  else if prompt_type = "job_title" then
    "Vous êtes un expert en recrutement IT/Tech. Évaluez la similarité entre ces deux titres de poste " ++
    "sur une échelle de 0 à 1 :\nTitre 1 : " ++ text1 ++ "\nTitre 2 : " ++ text2 ++ "\n" ++
    "Considérez les domaines d\x27expertise et compétences impliquées, pas seulement les mots exacts. " ++
    "Répondez uniquement par le score numérique."
  else if prompt_type = "degree" then
    "En tant qu\x27expert en recrutement tech, évaluez la similarité entre ces deux domaines de formation " ++
    "sur une échelle de 0 à 1 :\nDomaine 1 : " ++ text1 ++ "\nDomaine 2 : " ++ text2 ++ "\n" ++
    "Tenez compte des chevauchements de compétences et connaissances. " ++
    "Répondez uniquement par le score numérique."
  else if prompt_type = "soft_skill" then
    "Sur une échelle de 0 à 1, évaluez la similarité entre ces deux compétences comportementales " ++
    "(soft skills) :\nCompétence 1 : " ++ text1 ++ "\nCompétence 2 : " ++ text2 ++ "\n" ++
    "Répondez uniquement par le score numérique."
  else
    "Sur une échelle de 0 à 1, où 0 signifie \x27pas du tout similaire\x27 et 1 signifie \x27identique\x27, " ++
    "évaluez la similarité entre ces deux textes :\nTexte 1 : " ++ text1 ++ "\nTexte 2 : " ++ text2 ++ "\n" ++
    "Répondez uniquement par le score numérique."

/-- The external OpenAI call: it receives the prompt and either raises or returns
the response message content. -/
abbrev Oracle := String → Except Unit String

/-! ### similarity.py resolvers -/

/-- similarity.py `semantic_similarity_chatgpt`: consult the durable cache; on a
miss call the oracle — an exception yields the neutral 0.5 with no cache write;
a response is parsed for its first number (0.5 if none) and the resulting score
is written through to the cache. -/
def semantic_similarity_chatgpt (oracle : Oracle) (now maxEntries : ℕ)
    (text1 text2 cache_type prompt_type : String) (cache : SimCache) : ℚ × SimCache :=
  match get_similarity_from_cache now cache_type text1 text2 cache with
  | (some s, c1) => (s, c1)
  | (none, c1) =>
    match oracle (mkPrompt prompt_type text1 text2) with
    | .error _ => (1/2, c1)
    | .ok content =>
      (parsedScore content,
       save_similarity_to_cache maxEntries now cache_type text1 text2 (parsedScore content) c1)

/-- config.py `TECH_SKILLS_RELATIONS`, in source (dict insertion) order. -/
def TECH_SKILLS_RELATIONS : List (String × List String) :=
  [("javascript", ["js", "es6", "ecmascript", "typescript", "angular", "react", "vue", "node.js", "jquery"]),
   ("typescript", ["ts", "javascript", "angular", "react"]),
   ("python", ["django", "flask", "fastapi", "numpy", "pandas", "scipy", "tensorflow", "pytorch", "scikit-learn", "machine learning"]),
   ("java", ["spring", "hibernate", "j2ee", "kotlin", "scala", "android"]),
   ("c#", ["dotnet", ".net", "asp.net", "entity framework", "xamarin", "unity"]),
   ("c++", ["c", "stl", "boost", "qt", "unreal engine"]),
   ("php", ["laravel", "symfony", "wordpress", "drupal", "magento"]),
   ("ruby", ["ruby on rails", "sinatra", "rspec"]),
   ("swift", ["ios", "cocoa", "objective-c", "xcode"]),
   ("go", ["golang", "gin", "echo"]),
   ("rust", ["cargo", "actix", "tokio"]),
   ("html", ["html5", "css", "web development", "front-end", "frontend"]),
   ("css", ["scss", "sass", "less", "bootstrap", "tailwind", "styled components", "html"]),
   ("react", ["react.js", "reactjs", "jsx", "redux", "react native", "javascript", "typescript"]),
   ("angular", ["angularjs", "typescript", "javascript"]),
   ("vue", ["vuejs", "vue.js", "nuxt", "javascript"]),
   ("sql", ["mysql", "postgresql", "oracle", "ms sql", "sqlite", "database", "db"]),
   ("nosql", ["mongodb", "couchdb", "firebase", "dynamodb", "database", "db"]),
   ("mongodb", ["mongo", "nosql", "database", "db"]),
   ("postgresql", ["postgres", "sql", "database", "db"]),
   ("aws", ["amazon web services", "ec2", "s3", "lambda", "cloud"]),
   ("azure", ["microsoft azure", "cloud"]),
   ("gcp", ["google cloud platform", "cloud"]),
   ("docker", ["container", "kubernetes", "k8s", "devops"]),
   ("kubernetes", ["k8s", "container orchestration", "docker", "devops"]),
   ("ci/cd", ["continuous integration", "continuous deployment", "jenkins", "github actions", "gitlab ci", "devops"]),
   ("machine learning", ["ml", "ai", "artificial intelligence", "data science", "deep learning", "neural networks"]),
   ("data science", ["machine learning", "statistics", "data analysis", "big data", "python", "r"]),
   ("tensorflow", ["keras", "deep learning", "machine learning", "python"]),
   ("pytorch", ["deep learning", "machine learning", "python"]),
   ("android", ["kotlin", "java", "mobile development"]),
   ("ios", ["swift", "objective-c", "mobile development"]),
   ("react native", ["react", "mobile development", "javascript", "typescript"]),
   ("flutter", ["dart", "mobile development"]),
   ("git", ["github", "gitlab", "bitbucket", "version control"]),
   ("agile", ["scrum", "kanban", "jira", "project management"]),
   ("rest api", ["api", "restful", "web services"]),
   ("graphql", ["api", "apollo"])]

/-- The relation scan of `check_skills_relations`: first entry whose base/related
sets relate the two normalized skills, 0.85 for base↔related, 0.7 for two skills
related to the same base. -/
def scanRelations (n1 n2 : String) : List (String × List String) → Option ℚ
  | [] => none
  | (base, related) :: rest =>
    if n1 = base ∧ n2 ∈ related then some (17/20)
    else if n2 = base ∧ n1 ∈ related then some (17/20)
    else if n1 ∈ related ∧ n2 ∈ related then some (7/10)
    else scanRelations n1 n2 rest

/-- similarity.py `check_skills_relations`: 1.0 on identical normalizations, else
the static relation table, else `none`. -/
def check_skills_relations (skill1 skill2 : String) : Option ℚ :=
  let n1 := normalize_text skill1
  let n2 := normalize_text skill2
  if n1 = n2 then some 1 else scanRelations n1 n2 TECH_SKILLS_RELATIONS

/-- similarity.py `calculate_skill_similarity` (`hard_skills` kind): normalization
shortcut, then durable cache, then relation table (saved on a hit), then the
oracle.  The in-process `lru_cache` memoization is not modelled; it only
short-circuits repeated identical calls with the value the model returns anyway. -/
def calculate_skill_similarity (oracle : Oracle) (now maxEntries : ℕ)
    (skill1 skill2 : String) (cache : SimCache) : ℚ × SimCache :=
  if normalize_text skill1 = normalize_text skill2 then (1, cache)
  else match get_similarity_from_cache now "hard_skills" skill1 skill2 cache with
  | (some s, c1) => (s, c1)
  | (none, c1) =>
    match check_skills_relations skill1 skill2 with
    | some r => (r, save_similarity_to_cache maxEntries now "hard_skills" skill1 skill2 r c1)
    | none => semantic_similarity_chatgpt oracle now maxEntries skill1 skill2 "hard_skills" "hard_skill" c1

/-- The shared body of `get_name_similarity`, `get_soft_skill_similarity` and
`get_degree_similarity`, which are verbatim copies of one another up to the
cache table and prompt kind: falsy input scores 0, identical normalizations 1,
then durable cache, then the oracle. -/
def cachedOracleSimilarity (cache_type prompt_type : String) (oracle : Oracle)
    (now maxEntries : ℕ) (t1 t2 : String) (cache : SimCache) : ℚ × SimCache :=
  if t1 = "" ∨ t2 = "" then (0, cache)
  else if normalize_text t1 = normalize_text t2 then (1, cache)
  else match get_similarity_from_cache now cache_type t1 t2 cache with
  | (some s, c1) => (s, c1)
  | (none, c1) => semantic_similarity_chatgpt oracle now maxEntries t1 t2 cache_type prompt_type c1

/-- similarity.py `get_name_similarity`. -/
def get_name_similarity (oracle : Oracle) (now maxEntries : ℕ) (name1 name2 : String)
    (cache : SimCache) : ℚ × SimCache :=
  cachedOracleSimilarity "name" "job_title" oracle now maxEntries name1 name2 cache

/-- similarity.py `get_soft_skill_similarity`. -/
def get_soft_skill_similarity (oracle : Oracle) (now maxEntries : ℕ) (skill1 skill2 : String)
    (cache : SimCache) : ℚ × SimCache :=
  cachedOracleSimilarity "soft_skills" "soft_skill" oracle now maxEntries skill1 skill2 cache

/-- similarity.py `get_degree_similarity`. -/
def get_degree_similarity (oracle : Oracle) (now maxEntries : ℕ) (degree1 degree2 : String)
    (cache : SimCache) : ℚ × SimCache :=
  cachedOracleSimilarity "degree_domain" "degree" oracle now maxEntries degree1 degree2 cache

/-- similarity.py `get_hard_skill_similarity`: falsy input scores 0, else the
cached skill-similarity pipeline. -/
def get_hard_skill_similarity (oracle : Oracle) (now maxEntries : ℕ) (skill1 skill2 : String)
    (cache : SimCache) : ℚ × SimCache :=
  if skill1 = "" ∨ skill2 = "" then (0, cache)
  else calculate_skill_similarity oracle now maxEntries skill1 skill2 cache

/-- The four similarity kinds of the spec's `resolve(kind, a, b)`. -/
inductive SimKind
  | name
  | hard_skill
  | soft_skill
  | degree
deriving DecidableEq, Repr

/-- The spec's `SimilarityResolver.resolve`, dispatching to the per-kind source
functions. -/
def resolve (oracle : Oracle) (now maxEntries : ℕ) :
    SimKind → String → String → SimCache → ℚ × SimCache
  | .name => get_name_similarity oracle now maxEntries
  | .hard_skill => get_hard_skill_similarity oracle now maxEntries
  | .soft_skill => get_soft_skill_similarity oracle now maxEntries
  | .degree => get_degree_similarity oracle now maxEntries

/-! ### scoring.py: salary and remote-work scorers, with the calculate_match_score
call-site defaults -/

/-- scoring.py `salary_score`: Python truthiness makes a 0 (or absent-defaulted)
salary "missing", which never penalizes. -/
def salary_score (candidate_min_salary job_salary : ℚ) : ℚ :=
  if candidate_min_salary = 0 ∨ job_salary = 0 then 1
  else if candidate_min_salary ≤ job_salary then 1 else 0

/-- scoring.py `remote_work_score`: 1.0 when either side is `None` or when the
two booleans agree, else 0.0. -/
def remote_work_score (candidate_wants_remote job_offers_remote : Option Bool) : ℚ :=
  if candidate_wants_remote = none ∨ job_offers_remote = none then 1
  else if candidate_wants_remote = job_offers_remote then 1 else 0

/-- The salary task of `calculate_match_score` (scoring.py lines 565-569):
`salary_score(candidate.get("min_salary", 0), job.get("salary", 0))` — a missing
or null field becomes the falsy 0. -/
def matchSalaryScore (min_salary salary : Option ℚ) : ℚ :=
  salary_score (min_salary.getD 0) (salary.getD 0)

/-- The remote-work task of `calculate_match_score` (scoring.py lines 570-574):
`remote_work_score(candidate.get("wants_remote", False), job.get("offers_remote", False))`.
The outer `Option` is key presence in the record, the inner one an explicit null:
a missing key is defaulted to `False`, an explicit null stays `None`. -/
def matchRemoteWorkScore (wants_remote offers_remote : Option (Option Bool)) : ℚ :=
  remote_work_score (wants_remote.getD (some false)) (offers_remote.getD (some false))

/-! ### scoring.py: compare_hard_skills -/

/-- One entry of a job's `hard_skills` list: `{"skill": ..., "category": ...}`. -/
structure RequiredSkill where
  skill : String
  category : String
deriving DecidableEq, Repr

/-- One entry of the `detailed_scores` dict of `compare_hard_skills`. -/
structure HSDetail where
  candidate_skill : Option String
  score : ℚ
  category : String
deriving DecidableEq, Repr

/-- The inner best-match scan of `compare_hard_skills`: strict improvement over a
0.0 / `None` start, in candidate list order. -/
def bestSkillMatch (sim : String → String → ℚ) (candidate_skills : List String)
    (job_skill : String) : ℚ × Option String :=
  candidate_skills.foldl
    (fun acc c => if acc.1 < sim c job_skill then (sim c job_skill, some c) else acc)
    (0, none)

/-- Python dict insertion keyed by the job skill: overwrite in place, else append. -/
def dictInsert (k : String) (v : HSDetail) :
    List (String × HSDetail) → List (String × HSDetail)
  | [] => [(k, v)]
  | (k0, v0) :: rest => if k0 = k then (k0, v) :: rest else (k0, v0) :: dictInsert k v rest

/-- The loop state of `compare_hard_skills`; `final_score` is the Python local
that is only ever assigned inside the `category == "obligatoire"` branch, hence
`Option` (unassigned = `none`, reading it then is an `UnboundLocalError`). -/
structure HSState where
  obligatory_scores : List ℚ
  recommended_scores : List ℚ
  detailed_scores : List (String × HSDetail)
  final_score : Option ℚ
deriving DecidableEq, Repr

/-- scoring.py `THRESHOLD_OBLIGATORY = 0.8`. -/
def THRESHOLD_OBLIGATORY : ℚ := 4/5

/-- One iteration of the `for job_skill_info in required_skills` loop of
`compare_hard_skills`.  The third branch (a category that is neither
`"obligatoire"` nor `"recommandé"`) reads `final_score` for the detail record
without assigning it, which raises `UnboundLocalError` when no previous
mandatory iteration assigned it. -/
def hsStep (sim : String → String → ℚ) (candidate_skills : List String)
    (st : HSState) (info : RequiredSkill) : Except Unit HSState :=
  let job_skill := info.skill
  let category := pyLower info.category
  let best := bestSkillMatch sim candidate_skills job_skill
  if category = "obligatoire" then
    let fs := if best.1 < THRESHOLD_OBLIGATORY then 0 else best.1
    let bc := if best.1 < THRESHOLD_OBLIGATORY then none else best.2
    .ok { obligatory_scores := st.obligatory_scores ++ [fs],
          recommended_scores := st.recommended_scores,
          detailed_scores := dictInsert job_skill ⟨bc, fs, category⟩ st.detailed_scores,
          final_score := some fs }
  else if category = "recommandé" then
    .ok { obligatory_scores := st.obligatory_scores,
          recommended_scores := st.recommended_scores ++ [best.1],
          detailed_scores := dictInsert job_skill ⟨best.2, best.1, category⟩ st.detailed_scores,
          final_score := st.final_score }
  else
    match st.final_score with
    | none => .error ()
    | some fs =>
      .ok { st with detailed_scores := dictInsert job_skill ⟨best.2, fs, category⟩ st.detailed_scores }

/-- The whole requirements loop of `compare_hard_skills`. -/
def hsLoop (sim : String → String → ℚ) (candidate_skills : List String) :
    List RequiredSkill → HSState → Except Unit HSState
  | [], st => .ok st
  | r :: rest, st =>
    match hsStep sim candidate_skills st r with
    | .error e => .error e
    | .ok st1 => hsLoop sim candidate_skills rest st1

/-- `np.mean` of a list. -/
def listMean (l : List ℚ) : ℚ := l.sum / l.length

/-- The 0.7 / 0.3 mandatory/recommended aggregation shared by the scorers. -/
def weightedFinal (ob rec : List ℚ) : ℚ :=
  if ob ≠ [] ∧ rec ≠ [] then (7/10) * listMean ob + (3/10) * listMean rec
  else if ob ≠ [] then listMean ob
  else if rec ≠ [] then listMean rec
  else 0

/-- scoring.py `compare_hard_skills`, parameterized by the similarity function it
calls (`get_hard_skill_similarity`); `Except.error` is Python raising
`UnboundLocalError` out of the loop. -/
def compare_hard_skills (sim : String → String → ℚ) (candidate_skills : List String)
    (required_skills : List RequiredSkill) :
    Except Unit (ℚ × List (String × HSDetail)) :=
  if candidate_skills = [] ∨ required_skills = [] then .ok (0, [])
  else match hsLoop sim candidate_skills required_skills ⟨[], [], [], none⟩ with
  | .error e => .error e
  | .ok st => .ok (weightedFinal st.obligatory_scores st.recommended_scores, st.detailed_scores)

/-! ### scoring.py: adaptive_weights (with config.py BASE_WEIGHTS / FIXED_FIELDS) -/

/-- The seven scoring dimensions. -/
inductive Dim
  | hard_skills
  | soft_skills
  | experience
  | degree
  | salary
  | remote_work
  | languages
deriving DecidableEq, Repr

/-- config.py `BASE_WEIGHTS`. -/
def BASE_WEIGHTS : Dim → ℚ
  | .hard_skills => 40/100
  | .soft_skills => 10/100
  | .experience => 20/100
  | .degree => 15/100
  | .salary => 25/1000
  | .remote_work => 25/1000
  | .languages => 10/100

/-- config.py `FIXED_FIELDS = {"salary", "remote_work"}`. -/
def FIXED_FIELDS : Dim → Bool
  | .salary => true
  | .remote_work => true
  | _ => false

/-- One entry of a job's `required_experiences` list (only its presence matters
to the functions modelled here). -/
structure RequiredExperience where
  name : String
  months : ℤ
  category : String
deriving DecidableEq, Repr

/-- One value of a job's `required_languages` mapping. -/
structure LanguageRequirement where
  level : String
  required : Bool
deriving DecidableEq, Repr

/-- The job fields consulted by `adaptive_weights` and by the salary/remote
scorer call sites.  `salary = none` covers both a missing key and an explicit
null (`job.get("salary") is None`); for `offers_remote` the source tests key
presence (`"offers_remote" not in job`), so the outer `Option` is key presence
and the inner one an explicit null.  Fields of the record never read by the
modelled functions (id, title, tags) are omitted. -/
structure Job where
  hard_skills : List RequiredSkill
  required_experiences : List RequiredExperience
  required_degree : String
  salary : Option ℚ
  offers_remote : Option (Option Bool)
  required_languages : List (String × LanguageRequirement)
  required_soft_skills : List String
deriving DecidableEq, Repr

/-- The `fields_absent` test of `adaptive_weights`, per dimension: empty list,
empty string, `None` salary, missing `offers_remote` key, empty mapping. -/
def fieldAbsent (job : Job) : Dim → Bool
  | .hard_skills => job.hard_skills.isEmpty
  | .experience => job.required_experiences.isEmpty
  | .degree => job.required_degree == ""
  | .salary => job.salary.isNone
  | .remote_work => job.offers_remote.isNone
  | .languages => job.required_languages.isEmpty
  | .soft_skills => job.required_soft_skills.isEmpty

/-- Sum of a weight vector over the seven dimensions. -/
def totalWeight (w : Dim → ℚ) : ℚ :=
  w .hard_skills + w .soft_skills + w .experience + w .degree +
  w .salary + w .remote_work + w .languages

/-- scoring.py `adaptive_weights`: zero the absent dimensions, keep present fixed
fields as-is, and scale the present adjustable fields by
`(adjustable_sum + mass_to_redistribute) / adjustable_sum` where the
redistributed mass is everything the zeroing removed — including the mass of
absent *fixed* fields.  When no adjustable field is present, no redistribution
happens. -/
def adaptive_weights (base_weights : Dim → ℚ) (job : Job) : Dim → ℚ :=
  let zeroed : Dim → ℚ := fun d => if fieldAbsent job d then 0 else base_weights d
  let fixed_sum : ℚ := zeroed .salary + zeroed .remote_work
  let isAdjustable : Dim → Bool := fun d => !FIXED_FIELDS d && !fieldAbsent job d
  let adjustable_sum : ℚ :=
    (if isAdjustable .hard_skills then base_weights .hard_skills else 0) +
    (if isAdjustable .soft_skills then base_weights .soft_skills else 0) +
    (if isAdjustable .experience then base_weights .experience else 0) +
    (if isAdjustable .degree then base_weights .degree else 0) +
    (if isAdjustable .languages then base_weights .languages else 0)
  let sum_all : ℚ := totalWeight base_weights
  let mass_to_redistribute : ℚ := sum_all - (fixed_sum + adjustable_sum)
  if 0 < adjustable_sum then
    fun d => if isAdjustable d
      then zeroed d * ((adjustable_sum + mass_to_redistribute) / adjustable_sum)
      else zeroed d
  else zeroed

/-! ### Concrete jobs used by counterexamples and witnesses -/

/-- A job whose only present dimension is the fixed field `salary`. -/
def jobOnlySalary : Job :=
  { hard_skills := [], required_experiences := [], required_degree := "",
    salary := some 40000, offers_remote := none,
    required_languages := [], required_soft_skills := [] }

/-- A job whose only present dimension is `hard_skills`. -/
def jobOnlyHardSkills : Job :=
  { hard_skills := [⟨"python", "obligatoire"⟩], required_experiences := [],
    required_degree := "", salary := none, offers_remote := none,
    required_languages := [], required_soft_skills := [] }

/-- A job with every dimension present except `salary`. -/
def jobNoSalary : Job :=
  { hard_skills := [⟨"js", "obligatoire"⟩],
    required_experiences := [⟨"dev", 12, "obligatoire"⟩],
    required_degree := "licence", salary := none, offers_remote := some (some true),
    required_languages := [("anglais", ⟨"courant", true⟩)],
    required_soft_skills := ["communication"] }

/-! ### C1 -/

/-- C1 counterexample: the job `jobOnlySalary` has a present dimension (salary),
yet `adaptive_weights` returns a vector summing to 1/40, far outside the 1e-6
tolerance around 1.0: with no adjustable dimension present, no redistribution
happens and the dropped mass is lost. -/
theorem C1_counterexample :
    fieldAbsent jobOnlySalary .salary = false ∧
    totalWeight (adaptive_weights BASE_WEIGHTS jobOnlySalary) = 1/40 ∧
    ¬ |(1/40 : ℚ) - 1| ≤ 1/1000000 := by
  refine ⟨rfl, ?_, ?_⟩
  · norm_num [adaptive_weights, totalWeight, fieldAbsent, BASE_WEIGHTS, FIXED_FIELDS,
      jobOnlySalary]
  · rw [show |(1/40 : ℚ) - 1| = 39/40 by rw [abs_of_nonpos (by norm_num)]; norm_num]
    norm_num

set_option maxHeartbeats 1600000 in
/-- C1 (amended): for every job with at least one present *adjustable* dimension
(hard_skills, soft_skills, experience, degree, languages), the weight vector
returned by `adaptive_weights` sums to exactly 1 (hence within 1e-6 of 1.0).
Jobs whose only present dimensions are the fixed ones (salary, remote_work) sum
to the retained fixed mass instead, as `C1_counterexample` shows. -/
theorem C1_weights_sum_one (job : Job)
    (h : ∃ d, FIXED_FIELDS d = false ∧ fieldAbsent job d = false) :
    totalWeight (adaptive_weights BASE_WEIGHTS job) = 1 := by
  obtain ⟨d, hf, ha⟩ := h
  cases hhs : fieldAbsent job .hard_skills <;>
  cases hss : fieldAbsent job .soft_skills <;>
  cases hex : fieldAbsent job .experience <;>
  cases hdeg : fieldAbsent job .degree <;>
  cases hlang : fieldAbsent job .languages <;>
  first
    | (cases d <;> simp_all [FIXED_FIELDS] <;> done)
    | (simp only [adaptive_weights, totalWeight]
       simp +decide only [BASE_WEIGHTS, FIXED_FIELDS, hhs, hss, hex, hdeg, hlang,
         ite_apply, Bool.not_true, Bool.not_false, Bool.false_and, Bool.true_and,
         Bool.and_false, Bool.and_true, if_true, if_false]
       split_ifs <;>
         first
           | ring1
           | (exfalso; rename_i hc1 hc2 hc3; norm_num at hc1))

/-- C1 witness: a job with only hard skills present satisfies the hypothesis and
its weights sum to 1. -/
theorem C1_witness :
    totalWeight (adaptive_weights BASE_WEIGHTS jobOnlyHardSkills) = 1 :=
  C1_weights_sum_one jobOnlyHardSkills
    ⟨.hard_skills, rfl, by simp [fieldAbsent, jobOnlyHardSkills]⟩

/-! ### C2 -/

/-- The fixed-field mass retained by `adaptive_weights` (present fixed fields
keep their base weight). -/
def fixedKeptMass (job : Job) : ℚ :=
  (if fieldAbsent job .salary then 0 else BASE_WEIGHTS .salary) +
  (if fieldAbsent job .remote_work then 0 else BASE_WEIGHTS .remote_work)

/-- The base-weight mass of the present adjustable dimensions. -/
def adjustableKeptMass (job : Job) : ℚ :=
  (if fieldAbsent job .hard_skills then 0 else BASE_WEIGHTS .hard_skills) +
  (if fieldAbsent job .soft_skills then 0 else BASE_WEIGHTS .soft_skills) +
  (if fieldAbsent job .experience then 0 else BASE_WEIGHTS .experience) +
  (if fieldAbsent job .degree then 0 else BASE_WEIGHTS .degree) +
  (if fieldAbsent job .languages then 0 else BASE_WEIGHTS .languages)

/-- C2 counterexample: in `jobNoSalary` every adjustable dimension is present and
only the fixed field `salary` is absent, yet the hard-skills weight is scaled up
(to 39/95) instead of staying at its base 0.40 — the absent fixed field's mass
is redistributed to the adjustable dimensions, contradicting the claim that it
is simply dropped. -/
theorem C2_counterexample :
    fieldAbsent jobNoSalary .salary = true ∧
    fieldAbsent jobNoSalary .hard_skills = false ∧
    fieldAbsent jobNoSalary .soft_skills = false ∧
    fieldAbsent jobNoSalary .experience = false ∧
    fieldAbsent jobNoSalary .degree = false ∧
    fieldAbsent jobNoSalary .languages = false ∧
    adaptive_weights BASE_WEIGHTS jobNoSalary .hard_skills = 39/95 ∧
    (39/95 : ℚ) ≠ BASE_WEIGHTS .hard_skills := by
  refine ⟨rfl, rfl, rfl, rfl, rfl, rfl, ?_, by norm_num [BASE_WEIGHTS]⟩
  simp [adaptive_weights, totalWeight, fieldAbsent, BASE_WEIGHTS, FIXED_FIELDS,
    jobNoSalary]
  norm_num

set_option maxHeartbeats 1600000 in
/-- C2 (amended): each present adjustable dimension's final weight is its base
weight scaled by `(1 - fixedKeptMass) / adjustableKeptMass`: the numerator drops
only the mass of *present* fixed fields, so the mass of an absent fixed field is
redistributed to the adjustable dimensions along with the mass of absent
adjustable ones (while present fixed fields are never topped up and absent
fields stay at 0). -/
theorem C2_redistribution (job : Job) (d : Dim)
    (hfix : FIXED_FIELDS d = false) (hpres : fieldAbsent job d = false) :
    adaptive_weights BASE_WEIGHTS job d =
      BASE_WEIGHTS d * ((1 - fixedKeptMass job) / adjustableKeptMass job) := by
  cases d <;>
  first
    | (simp [FIXED_FIELDS] at hfix; done)
    | (cases hhs : fieldAbsent job .hard_skills <;>
       cases hss : fieldAbsent job .soft_skills <;>
       cases hex : fieldAbsent job .experience <;>
       cases hdeg : fieldAbsent job .degree <;>
       cases hlang : fieldAbsent job .languages <;>
       first
         | (simp_all; done)
         | (simp only [adaptive_weights, totalWeight, fixedKeptMass, adjustableKeptMass]
            simp +decide only [BASE_WEIGHTS, FIXED_FIELDS, hhs, hss, hex, hdeg, hlang,
              ite_apply, Bool.not_true, Bool.not_false, Bool.false_and, Bool.true_and,
              Bool.and_false, Bool.and_true, if_true, if_false]
            split_ifs <;>
              first
                | ring1
                | (exfalso; rename_i hc1 hc2 hc3; norm_num at hc1)))

/-- C2 witness: in `jobNoSalary` (salary absent, everything else present) the
hard-skills weight is 0.40 · (1 − 0.025) / 0.95 = 39/95. -/
theorem C2_witness :
    adaptive_weights BASE_WEIGHTS jobNoSalary .hard_skills = 39/95 := by
  rw [C2_redistribution jobNoSalary .hard_skills rfl rfl]
  simp [fixedKeptMass, adjustableKeptMass, fieldAbsent, BASE_WEIGHTS, jobNoSalary]
  norm_num

/-! ### C4 -/

/-- C4 counterexample: a candidate record with no `wants_remote` key, scored by
the `calculate_match_score` call site against a job known to offer remote work,
gets remote-work score 0 — not the 1.0 the claim's "either value is unknown"
clause predicts: the missing key is defaulted to `False`, not to unknown. -/
theorem C4_counterexample :
    matchRemoteWorkScore none (some (some true)) = 0 ∧ (0 : ℚ) ≠ 1 := by
  constructor
  · simp [matchRemoteWorkScore, remote_work_score]
  · norm_num

/-- C4 (amended): `remote_work_score` itself returns 1.0 exactly when the two
preferences agree or either is an explicit `None`; but `calculate_match_score`
passes `candidate.get("wants_remote", False)` and `job.get("offers_remote", False)`,
so a record *missing* the key is treated as the real preference `False`: such a
candidate scores 0 against a job whose `offers_remote` is `True` (and 1 against
`False`), while only an explicit null is treated as unknown. -/
theorem C4_remote_unknown :
    (∀ cw jo : Option Bool,
      remote_work_score cw jo = 1 ↔ (cw = none ∨ jo = none ∨ cw = jo)) ∧
    (∀ b : Bool, matchRemoteWorkScore none (some (some b)) = if b then 0 else 1) ∧
    (∀ o : Option (Option Bool), matchRemoteWorkScore (some none) o = 1) := by
  refine ⟨?_, ?_, ?_⟩
  · intro cw jo
    cases cw <;> cases jo <;> simp [remote_work_score]
  · intro b
    cases b <;> simp [matchRemoteWorkScore, remote_work_score]
  · intro o
    cases o <;> simp [matchRemoteWorkScore, remote_work_score]

/-! ### C5 -/

/-- C5: through the `calculate_match_score` call site (missing salary fields
default to the falsy 0), for positive known salaries the salary dimension scores
1.0 iff the job's salary meets the candidate's minimum, and any unknown value
scores 1.0 — in particular a known job salary strictly below the known minimum
scores 0.0.  (Positivity matters only because the source encodes "unknown" as
the falsy 0, so a literal salary of 0 is indistinguishable from absence.) -/
theorem C5_salary_score (m j : Option ℚ) (hm : ∀ x ∈ m, 0 < x) (hj : ∀ x ∈ j, 0 < x) :
    matchSalaryScore m j =
      (match m, j with
       | some mv, some jv => if jv < mv then 0 else 1
       | _, _ => 1) := by
  cases m with
  | none => cases j <;> simp [matchSalaryScore, salary_score]
  | some mv =>
    have hmv : 0 < mv := hm mv rfl
    cases j with
    | none => simp [matchSalaryScore, salary_score]
    | some jv =>
      have hjv : 0 < jv := hj jv rfl
      simp only [matchSalaryScore, salary_score, Option.getD_some]
      rw [if_neg (by push_neg; exact ⟨ne_of_gt hmv, ne_of_gt hjv⟩)]
      rcases le_or_lt mv jv with hle | hlt
      · rw [if_pos hle, if_neg (not_lt.mpr hle)]
      · rw [if_neg (not_le.mpr hlt), if_pos hlt]

/-- C5 witness: a candidate minimum of 35000 against a known job salary of 30000
scores 0. -/
theorem C5_witness : matchSalaryScore (some 35000) (some 30000) = 0 := by
  have h := C5_salary_score (some 35000) (some 30000)
    (by intro x hx; rw [Option.mem_def, Option.some_inj] at hx; subst hx; norm_num)
    (by intro x hx; rw [Option.mem_def, Option.some_inj] at hx; subst hx; norm_num)
  rw [h]
  norm_num

/-! ### C6 / C10: compare_hard_skills -/

/-- The mandatory-gate value of one required skill: the best candidate similarity,
forced to 0 below the 0.8 threshold. -/
def gatedBestScore (sim : String → String → ℚ) (cs : List String) (r : RequiredSkill) : ℚ :=
  if (bestSkillMatch sim cs r.skill).1 < THRESHOLD_OBLIGATORY then 0
  else (bestSkillMatch sim cs r.skill).1

lemma hsStep_obligatoire (sim : String → String → ℚ) (cs : List String)
    (st : HSState) (r : RequiredSkill) (hr : pyLower r.category = "obligatoire") :
    hsStep sim cs st r = .ok
      { obligatory_scores := st.obligatory_scores ++ [gatedBestScore sim cs r],
        recommended_scores := st.recommended_scores,
        detailed_scores := dictInsert r.skill
          ⟨if (bestSkillMatch sim cs r.skill).1 < THRESHOLD_OBLIGATORY then none
            else (bestSkillMatch sim cs r.skill).2,
           gatedBestScore sim cs r, pyLower r.category⟩ st.detailed_scores,
        final_score := some (gatedBestScore sim cs r) } := by
  simp [hsStep, hr, gatedBestScore]

lemma hsLoop_all_obligatoire (sim : String → String → ℚ) (cs : List String)
    (rs : List RequiredSkill) :
    ∀ st : HSState, (∀ r ∈ rs, pyLower r.category = "obligatoire") →
    ∃ st' : HSState,
      hsLoop sim cs rs st = .ok st' ∧
      st'.obligatory_scores = st.obligatory_scores ++ rs.map (gatedBestScore sim cs) ∧
      st'.recommended_scores = st.recommended_scores := by
  induction rs with
  | nil => intro st _; exact ⟨st, rfl, by simp, rfl⟩
  | cons r rest ih =>
    intro st h
    have hr : pyLower r.category = "obligatoire" := h r (List.mem_cons_self r rest)
    obtain ⟨st', h1, h2, h3⟩ := ih
      { obligatory_scores := st.obligatory_scores ++ [gatedBestScore sim cs r],
        recommended_scores := st.recommended_scores,
        detailed_scores := dictInsert r.skill
          ⟨if (bestSkillMatch sim cs r.skill).1 < THRESHOLD_OBLIGATORY then none
            else (bestSkillMatch sim cs r.skill).2,
           gatedBestScore sim cs r, pyLower r.category⟩ st.detailed_scores,
        final_score := some (gatedBestScore sim cs r) }
      (fun x hx => h x (List.mem_cons_of_mem r hx))
    refine ⟨st', ?_, ?_, h3⟩
    · simp only [hsLoop]
      rw [hsStep_obligatoire sim cs st r hr]
      exact h1
    · rw [h2]; simp

/-- C6: for a required-skills list made only of mandatory (`obligatoire`) entries,
`compare_hard_skills` returns the arithmetic mean of the per-requirement gated
best scores: a best candidate similarity below the 0.8 threshold contributes
exactly 0 to the mandatory average (a 0.79 best score contributes 0, the same as
no match), while a best score at or above 0.8 contributes that raw score. -/
theorem C6_mandatory_gate (sim : String → String → ℚ) (cs : List String)
    (rs : List RequiredSkill) (hcs : cs ≠ []) (hrs : rs ≠ [])
    (hmand : ∀ r ∈ rs, pyLower r.category = "obligatoire") :
    (compare_hard_skills sim cs rs).map Prod.fst =
      .ok (listMean (rs.map (gatedBestScore sim cs))) := by
  obtain ⟨st', h1, h2, h3⟩ := hsLoop_all_obligatoire sim cs rs ⟨[], [], [], none⟩ hmand
  unfold compare_hard_skills
  rw [if_neg (by simp [hcs, hrs])]
  rw [h1]
  simp only [Except.map]
  rw [weightedFinal, h2, h3]
  simp [hrs]

/-- A constant similarity of 0.79. -/
def sim79 : String → String → ℚ := fun _ _ => 79/100

/-- C6 witness: one mandatory requirement whose best candidate similarity is 0.79
(which is strictly below 0.8 yet strictly positive) yields hard-skill score 0. -/
theorem C6_witness :
    (compare_hard_skills sim79 ["python"] [⟨"java", "obligatoire"⟩]).map Prod.fst =
      .ok 0 ∧ (0 : ℚ) < 79/100 ∧ (79 : ℚ)/100 < 4/5 := by
  refine ⟨?_, by norm_num, by norm_num⟩
  rw [C6_mandatory_gate sim79 ["python"] [⟨"java", "obligatoire"⟩] (by simp) (by simp)
    (by intro r hr; simp at hr; subst hr; decide)]
  simp [gatedBestScore, bestSkillMatch, sim79, listMean, THRESHOLD_OBLIGATORY]
  norm_num

/-- The similarity used in the C10 reuse conjunct: candidate `"x"` matches the
job skill `"a"` at 0.9 but `"b"` only at 0.3. -/
def simC10 : String → String → ℚ := fun _ t => if t = "a" then 9/10 else 3/10

/-- C10: `compare_hard_skills` is not total on its documented input shape.  For a
non-empty candidate list, if the first required entry's lower-cased category is
neither `"obligatoire"` nor `"recommandé"`, evaluation raises `UnboundLocalError`
(the detail record reads `final_score` before any assignment).  And when such an
entry follows a mandatory one, the loop silently reuses the previous mandatory
iteration's gated value: below, the detail row for `"b"` records score 9/10 (the
gated value of `"a"`) even though `"b"`'s own best similarity is 3/10. -/
theorem C10_unbound_final_score :
    (∀ (sim : String → String → ℚ) (cs : List String) (r : RequiredSkill)
      (rest : List RequiredSkill),
      cs ≠ [] →
      pyLower r.category ≠ "obligatoire" →
      pyLower r.category ≠ "recommandé" →
      compare_hard_skills sim cs (r :: rest) = .error ()) ∧
    compare_hard_skills simC10 ["x"] [⟨"a", "obligatoire"⟩, ⟨"b", "autre"⟩] =
      .ok (9/10, [("a", ⟨some "x", 9/10, "obligatoire"⟩),
                  ("b", ⟨some "x", 9/10, "autre"⟩)]) ∧
    simC10 "x" "b" = 3/10 := by
  refine ⟨?_, ?_, by simp [simC10]⟩
  · intro sim cs r rest hcs h1 h2
    unfold compare_hard_skills
    rw [if_neg (by simp [hcs])]
    simp [hsLoop, hsStep, h1, h2]
  · simp [compare_hard_skills, hsLoop, hsStep, bestSkillMatch, simC10, dictInsert,
      weightedFinal, listMean, THRESHOLD_OBLIGATORY, pyLower]
    norm_num

/-- A constant similarity used by the C10 witness. -/
def simHalf : String → String → ℚ := fun _ _ => 1/2

/-- C10 witness: a single requirement with category `"optionnel"` and a non-empty
candidate list raises `UnboundLocalError`. -/
theorem C10_witness :
    compare_hard_skills simHalf ["x"] [⟨"c", "optionnel"⟩] = .error () :=
  C10_unbound_final_score.1 simHalf ["x"] ⟨"c", "optionnel"⟩ [] (by simp)
    (by decide) (by decide)

/-! ### Cache lemmas shared by the similarity claims -/

lemma rowMatches_iff (ct x y : String) (r : String × CacheRow) :
    rowMatches ct x y r = true ↔ r.1 = ct ∧ r.2.text1 = x ∧ r.2.text2 = y := by
  simp [rowMatches, Bool.and_assoc]

lemma get_eq_hit {ct t1 t2 : String} {c : SimCache} {s : ℚ} (now : ℕ)
    (h : scoreLookup ct t1 t2 c = some s) :
    get_similarity_from_cache now ct t1 t2 c =
      (some s, refreshTimestamp now ct (sortedPair t1 t2).1 (sortedPair t1 t2).2 c) := by
  unfold get_similarity_from_cache
  unfold scoreLookup at h
  cases hf : c.find? (rowMatches ct (sortedPair t1 t2).1 (sortedPair t1 t2).2) with
  | none => rw [hf] at h; simp at h
  | some r => rw [hf] at h; simp at h; simp [hf, h]

lemma get_eq_miss {ct t1 t2 : String} {c : SimCache} (now : ℕ)
    (h : scoreLookup ct t1 t2 c = none) :
    get_similarity_from_cache now ct t1 t2 c = (none, c) := by
  unfold get_similarity_from_cache
  unfold scoreLookup at h
  cases hf : c.find? (rowMatches ct (sortedPair t1 t2).1 (sortedPair t1 t2).2) with
  | none => simp [hf]
  | some r => rw [hf] at h; simp at h

lemma rowMatches_refresh (a1 a2 a3 ct x y : String) (now : ℕ) (r : String × CacheRow) :
    rowMatches a1 a2 a3
        (if rowMatches ct x y r then (r.1, { r.2 with timestamp := now }) else r)
      = rowMatches a1 a2 a3 r := by
  by_cases h : rowMatches ct x y r = true
  · rw [if_pos h]; rfl
  · rw [if_neg h]

lemma scoreMap_find?_refresh (a1 a2 a3 ct x y : String) (now : ℕ) (c : SimCache) :
    Option.map (fun r => r.2.score)
      ((refreshTimestamp now ct x y c).find? (rowMatches a1 a2 a3)) =
    Option.map (fun r => r.2.score) (c.find? (rowMatches a1 a2 a3)) := by
  induction c with
  | nil => rfl
  | cons r rest ih =>
    have hhead := rowMatches_refresh a1 a2 a3 ct x y now r
    simp only [refreshTimestamp, List.map_cons] at ih ⊢
    by_cases h : rowMatches a1 a2 a3 r = true
    · rw [List.find?_cons_of_pos _ (by rw [hhead]; exact h), List.find?_cons_of_pos _ h]
      by_cases hm : rowMatches ct x y r = true
      · rw [if_pos hm]; rfl
      · rw [if_neg hm]
    · rw [List.find?_cons_of_neg _ (by rw [hhead]; simp [h]),
        List.find?_cons_of_neg _ (by simp [h])]
      exact ih

lemma scoreLookup_refresh (ct' u1 u2 ct x y : String) (now : ℕ) (c : SimCache) :
    scoreLookup ct' u1 u2 (refreshTimestamp now ct x y c) = scoreLookup ct' u1 u2 c := by
  unfold scoreLookup
  exact scoreMap_find?_refresh ct' (sortedPair u1 u2).1 (sortedPair u1 u2).2 ct x y now c

lemma find?_upsertRow (ct x y : String) (s : ℚ) (ts : ℕ) (c : SimCache) :
    (upsertRow ct x y s ts c).find? (rowMatches ct x y) = some (ct, ⟨x, y, s, ts⟩) := by
  induction c with
  | nil => simp [upsertRow, List.find?, rowMatches]
  | cons r rest ih =>
    unfold upsertRow
    by_cases h : rowMatches ct x y r = true
    · rw [if_pos h, List.find?_cons_of_pos _ (by simp [rowMatches])]
    · rw [if_neg h, List.find?_cons_of_neg _ h, ih]

lemma scoreLookup_save (maxE now : ℕ) (ct t1 t2 : String) (s : ℚ) (c : SimCache) :
    scoreLookup ct t1 t2 (save_similarity_to_cache maxE now ct t1 t2 s c) = some s := by
  unfold scoreLookup save_similarity_to_cache
  rw [find?_upsertRow]
  rfl

/-! ### semantic_similarity_chatgpt branch lemmas -/

lemma semantic_hit {ct t1 t2 : String} {c : SimCache} {s : ℚ}
    (oracle : Oracle) (now maxE : ℕ) (pt : String)
    (h : scoreLookup ct t1 t2 c = some s) :
    semantic_similarity_chatgpt oracle now maxE t1 t2 ct pt c =
      (s, refreshTimestamp now ct (sortedPair t1 t2).1 (sortedPair t1 t2).2 c) := by
  unfold semantic_similarity_chatgpt
  rw [get_eq_hit now h]

lemma semantic_err {ct t1 t2 pt : String} {c : SimCache} {oracle : Oracle}
    (now maxE : ℕ)
    (hl : scoreLookup ct t1 t2 c = none)
    (he : oracle (mkPrompt pt t1 t2) = .error ()) :
    semantic_similarity_chatgpt oracle now maxE t1 t2 ct pt c = (1/2, c) := by
  unfold semantic_similarity_chatgpt
  rw [get_eq_miss now hl, he]

lemma semantic_ok {ct t1 t2 pt resp : String} {c : SimCache} {oracle : Oracle}
    (now maxE : ℕ)
    (hl : scoreLookup ct t1 t2 c = none)
    (ho : oracle (mkPrompt pt t1 t2) = .ok resp) :
    semantic_similarity_chatgpt oracle now maxE t1 t2 ct pt c =
      (parsedScore resp,
       save_similarity_to_cache maxE now ct t1 t2 (parsedScore resp) c) := by
  unfold semantic_similarity_chatgpt
  rw [get_eq_miss now hl, ho]

/-! ### C3 -/

/-- The always-failing oracle (the OpenAI call raises). -/
def oracleFail : Oracle := fun _ => .error ()

/-- An oracle that always answers with the fixed response text. -/
def oracleConst (resp : String) : Oracle := fun _ => .ok resp

/-- C3 counterexample: on a cache miss with an erroring oracle call, the resolver
returns the neutral 0.5 but leaves the cache untouched (still empty) — the claim
that "in either case (success or failure) the resulting score is written through
to the durable cache" fails on the call-error path. -/
theorem C3_counterexample :
    semantic_similarity_chatgpt oracleFail 0 100000 "aa" "bb" "soft_skills" "soft_skill" [] =
      (1/2, ([] : SimCache)) ∧
    scoreLookup "soft_skills" "aa" "bb" ([] : SimCache) = none := by
  exact ⟨rfl, rfl⟩

/-- C3 (amended): on a cache miss, an erroring oracle call makes
`semantic_similarity_chatgpt` return the neutral 0.5 with *no* cache write (the
exception handler returns before the save), while a successful call whose
response contains no parseable number yields 0.5 *and* writes it through
(insert-or-update); no error propagates to the caller in either case. -/
theorem C3_neutral_default (now maxE : ℕ) (t1 t2 ct pt : String) (cache : SimCache)
    (oracle : Oracle) (hl : scoreLookup ct t1 t2 cache = none) :
    (oracle (mkPrompt pt t1 t2) = .error () →
      semantic_similarity_chatgpt oracle now maxE t1 t2 ct pt cache = (1/2, cache)) ∧
    (∀ resp, oracle (mkPrompt pt t1 t2) = .ok resp →
      findFirstNumber (stripString resp) = none →
      semantic_similarity_chatgpt oracle now maxE t1 t2 ct pt cache =
        (1/2, save_similarity_to_cache maxE now ct t1 t2 (1/2) cache)) := by
  constructor
  · intro he
    exact semantic_err now maxE hl he
  · intro resp ho hp
    have hps : parsedScore resp = 1/2 := by unfold parsedScore; rw [hp]
    rw [semantic_ok now maxE hl ho, hps]

/-- C3 witness: concrete failing call on an empty cache returns (0.5, unchanged). -/
theorem C3_witness :
    semantic_similarity_chatgpt oracleFail 3 100000 "x" "y" "name" "general" [] =
      (1/2, ([] : SimCache)) :=
  (C3_neutral_default 3 100000 "x" "y" "name" "general" [] oracleFail rfl).1 rfl

/-! ### Branch-characterization lemmas for the resolvers -/

lemma cos_empty {a b : String} (ct pt : String) (oracle : Oracle) (now maxE : ℕ)
    (c : SimCache) (he : a = "" ∨ b = "") :
    cachedOracleSimilarity ct pt oracle now maxE a b c = (0, c) := by
  unfold cachedOracleSimilarity
  rw [if_pos he]

lemma cos_normEq {a b : String} (ct pt : String) (oracle : Oracle) (now maxE : ℕ)
    (c : SimCache) (he : ¬(a = "" ∨ b = ""))
    (hn : normalize_text a = normalize_text b) :
    cachedOracleSimilarity ct pt oracle now maxE a b c = (1, c) := by
  unfold cachedOracleSimilarity
  rw [if_neg he, if_pos hn]

lemma cos_hit {a b ct : String} {c : SimCache} {s : ℚ} (pt : String) (oracle : Oracle)
    (now maxE : ℕ) (he : ¬(a = "" ∨ b = ""))
    (hn : normalize_text a ≠ normalize_text b)
    (hsl : scoreLookup ct a b c = some s) :
    cachedOracleSimilarity ct pt oracle now maxE a b c =
      (s, refreshTimestamp now ct (sortedPair a b).1 (sortedPair a b).2 c) := by
  unfold cachedOracleSimilarity
  rw [if_neg he, if_neg hn, get_eq_hit now hsl]

lemma cos_miss {a b ct : String} {c : SimCache} (pt : String) (oracle : Oracle)
    (now maxE : ℕ) (he : ¬(a = "" ∨ b = ""))
    (hn : normalize_text a ≠ normalize_text b)
    (hsl : scoreLookup ct a b c = none) :
    cachedOracleSimilarity ct pt oracle now maxE a b c =
      semantic_similarity_chatgpt oracle now maxE a b ct pt c := by
  unfold cachedOracleSimilarity
  rw [if_neg he, if_neg hn, get_eq_miss now hsl]

lemma css_normEq {a b : String} (oracle : Oracle) (now maxE : ℕ) (c : SimCache)
    (hn : normalize_text a = normalize_text b) :
    calculate_skill_similarity oracle now maxE a b c = (1, c) := by
  unfold calculate_skill_similarity
  rw [if_pos hn]

lemma css_hit {a b : String} {c : SimCache} {s : ℚ} (oracle : Oracle) (now maxE : ℕ)
    (hn : normalize_text a ≠ normalize_text b)
    (hsl : scoreLookup "hard_skills" a b c = some s) :
    calculate_skill_similarity oracle now maxE a b c =
      (s, refreshTimestamp now "hard_skills" (sortedPair a b).1 (sortedPair a b).2 c) := by
  unfold calculate_skill_similarity
  rw [if_neg hn, get_eq_hit now hsl]

lemma css_rel {a b : String} {c : SimCache} {r : ℚ} (oracle : Oracle) (now maxE : ℕ)
    (hn : normalize_text a ≠ normalize_text b)
    (hsl : scoreLookup "hard_skills" a b c = none)
    (hrel : check_skills_relations a b = some r) :
    calculate_skill_similarity oracle now maxE a b c =
      (r, save_similarity_to_cache maxE now "hard_skills" a b r c) := by
  unfold calculate_skill_similarity
  rw [if_neg hn, get_eq_miss now hsl, hrel]

lemma css_norel {a b : String} {c : SimCache} (oracle : Oracle) (now maxE : ℕ)
    (hn : normalize_text a ≠ normalize_text b)
    (hsl : scoreLookup "hard_skills" a b c = none)
    (hrel : check_skills_relations a b = none) :
    calculate_skill_similarity oracle now maxE a b c =
      semantic_similarity_chatgpt oracle now maxE a b "hard_skills" "hard_skill" c := by
  unfold calculate_skill_similarity
  rw [if_neg hn, get_eq_miss now hsl, hrel]

lemma ghs_empty {a b : String} (oracle : Oracle) (now maxE : ℕ) (c : SimCache)
    (he : a = "" ∨ b = "") :
    get_hard_skill_similarity oracle now maxE a b c = (0, c) := by
  unfold get_hard_skill_similarity
  rw [if_pos he]

lemma ghs_nonempty {a b : String} (oracle : Oracle) (now maxE : ℕ) (c : SimCache)
    (he : ¬(a = "" ∨ b = "")) :
    get_hard_skill_similarity oracle now maxE a b c =
      calculate_skill_similarity oracle now maxE a b c := by
  unfold get_hard_skill_similarity
  rw [if_neg he]

/-! ### Symmetry infrastructure (sorted pairs, relation table) -/

lemma lexLt_asymm : ∀ {a b : List Char}, lexLt a b = true → lexLt b a = false
  | [], [], h => by simp [lexLt] at h
  | [], _ :: _, _ => rfl
  | _ :: _, [], h => by simp [lexLt] at h
  | x :: xs, y :: ys, h => by
    unfold lexLt at h ⊢
    by_cases h1 : x.toNat < y.toNat
    · rw [if_neg (by omega : ¬ y.toNat < x.toNat), if_pos h1]
    · by_cases h2 : y.toNat < x.toNat
      · rw [if_neg h1, if_pos h2] at h
        exact absurd h (by simp)
      · rw [if_neg h1, if_neg h2] at h
        rw [if_neg h2, if_neg h1]
        exact lexLt_asymm h

lemma lexLt_both_false : ∀ {a b : List Char}, lexLt a b = false → lexLt b a = false → a = b
  | [], [], _, _ => rfl
  | [], _ :: _, h, _ => by simp [lexLt] at h
  | _ :: _, [], _, h => by simp [lexLt] at h
  | x :: xs, y :: ys, h, h' => by
    unfold lexLt at h h'
    by_cases h1 : x.toNat < y.toNat
    · rw [if_pos h1] at h; exact absurd h (by simp)
    · by_cases h2 : y.toNat < x.toNat
      · rw [if_pos h2] at h'; exact absurd h' (by simp)
      · rw [if_neg h1, if_neg h2] at h
        rw [if_neg h2, if_neg h1] at h'
        have hxy : x = y := by
          have hn2 : x.toNat = y.toNat := by omega
          exact Char.eq_of_val_eq (UInt32.eq_of_val_eq (Fin.eq_of_val_eq hn2))
        rw [hxy, lexLt_both_false h h']

lemma sortedPair_comm (a b : String) : sortedPair a b = sortedPair b a := by
  unfold sortedPair
  by_cases h1 : lexLt b.data a.data = true
  · rw [if_pos h1, if_neg (by rw [lexLt_asymm h1]; simp)]
  · by_cases h2 : lexLt a.data b.data = true
    · rw [if_neg h1, if_pos h2]
    · rw [if_neg h1, if_neg h2]
      have : a.data = b.data :=
        lexLt_both_false (by simpa using h2) (by simpa using h1)
      have hab : a = b := by
        cases a; cases b; simp at this; rw [this]
      rw [hab]

lemma scoreLookup_comm (ct a b : String) (c : SimCache) :
    scoreLookup ct a b c = scoreLookup ct b a c := by
  unfold scoreLookup
  rw [sortedPair_comm]

lemma scanRelations_comm (n1 n2 : String) :
    ∀ l : List (String × List String), scanRelations n1 n2 l = scanRelations n2 n1 l := by
  intro l
  induction l with
  | nil => rfl
  | cons e rest ih =>
    obtain ⟨base, related⟩ := e
    unfold scanRelations
    by_cases h1 : n1 = base ∧ n2 ∈ related
    · rw [if_pos h1]
      by_cases h2 : n2 = base ∧ n1 ∈ related
      · rw [if_pos h2]
      · rw [if_neg h2, if_pos h1]
    · rw [if_neg h1]
      by_cases h2 : n2 = base ∧ n1 ∈ related
      · rw [if_pos h2, if_pos h2]
      · rw [if_neg h2, if_neg h2, if_neg h1]
        by_cases h3 : n1 ∈ related ∧ n2 ∈ related
        · rw [if_pos h3, if_pos (And.intro h3.2 h3.1)]
        · rw [if_neg h3, if_neg (fun hh => h3 (And.intro hh.2 hh.1))]
          exact ih

lemma check_skills_relations_comm (s1 s2 : String) :
    check_skills_relations s1 s2 = check_skills_relations s2 s1 := by
  unfold check_skills_relations
  by_cases h : normalize_text s1 = normalize_text s2
  · rw [if_pos h, if_pos h.symm]
  · rw [if_neg h, if_neg (fun hh => h hh.symm), scanRelations_comm]

lemma scanRelations_values {n1 n2 : String} {v : ℚ} :
    ∀ {l : List (String × List String)}, scanRelations n1 n2 l = some v →
      v = 17/20 ∨ v = 7/10
  | [], h => by simp [scanRelations] at h
  | e :: rest, h => by
    obtain ⟨base, related⟩ := e
    unfold scanRelations at h
    by_cases h1 : n1 = base ∧ n2 ∈ related
    · rw [if_pos h1] at h
      exact Or.inl (Option.some.inj h).symm
    · rw [if_neg h1] at h
      by_cases h2 : n2 = base ∧ n1 ∈ related
      · rw [if_pos h2] at h
        exact Or.inl (Option.some.inj h).symm
      · rw [if_neg h2] at h
        by_cases h3 : n1 ∈ related ∧ n2 ∈ related
        · rw [if_pos h3] at h
          exact Or.inr (Option.some.inj h).symm
        · rw [if_neg h3] at h
          exact scanRelations_values h

/-! ### C7 -/

/-- `parsedScore "0" = 0`. -/
lemma parsedScore_zero : parsedScore "0" = 0 := by
  simp [parsedScore, findFirstNumber, stripString, stripChars, pyWhitespace,
    findFirstNumberAux, digitsToNat]

/-- C7 counterexample: `resolve(soft_skill, "!", "?")` returns 1.0 via the
exact-match shortcut (cache and oracle untouched: the sentry oracle would have
produced 0.2) even though the shared normalization is *empty* — the shortcut
tests raw non-emptiness, not normalized non-emptiness, so "exactly when the two
texts have equal and non-empty normalizations" is false. -/
theorem C7_counterexample :
    resolve (oracleConst "0.2") 0 100000 .soft_skill "!" "?" [] = (1, ([] : SimCache)) ∧
    normalize_text "!" = "" ∧ normalize_text "?" = "" ∧
    ("!" : String) ≠ "" ∧ ("?" : String) ≠ "" :=
  ⟨rfl, rfl, rfl, by decide, by decide⟩

/-- C7 (amended): for every kind, `resolve(kind, a, b)` returns 1.0 independently
of (and without touching) cache and oracle exactly when both *raw* texts are
non-empty and their normalizations are equal — the shared normalization may be
empty (two pure-punctuation strings short-circuit to 1.0). -/
theorem C7_exact_match_shortcut (k : SimKind) (a b : String) :
    (∀ (oracle : Oracle) (now maxE : ℕ) (cache : SimCache),
        resolve oracle now maxE k a b cache = (1, cache)) ↔
      (a ≠ "" ∧ b ≠ "" ∧ normalize_text a = normalize_text b) := by
  constructor
  · intro H
    have key : ∀ s : String, resolve (oracleConst s) 0 100000 k a b [] = (1, []) :=
      fun s => H (oracleConst s) 0 100000 []
    have ha : a ≠ "" := by
      intro hae
      have h0 := key "0"
      have hres : resolve (oracleConst "0") 0 100000 k a b [] = (0, []) := by
        cases k
        · exact cos_empty _ _ _ _ _ _ (Or.inl hae)
        · exact ghs_empty _ _ _ _ (Or.inl hae)
        · exact cos_empty _ _ _ _ _ _ (Or.inl hae)
        · exact cos_empty _ _ _ _ _ _ (Or.inl hae)
      rw [hres] at h0
      have : (0 : ℚ) = 1 := congrArg Prod.fst h0
      norm_num at this
    have hb : b ≠ "" := by
      intro hbe
      have h0 := key "0"
      have hres : resolve (oracleConst "0") 0 100000 k a b [] = (0, []) := by
        cases k
        · exact cos_empty _ _ _ _ _ _ (Or.inr hbe)
        · exact ghs_empty _ _ _ _ (Or.inr hbe)
        · exact cos_empty _ _ _ _ _ _ (Or.inr hbe)
        · exact cos_empty _ _ _ _ _ _ (Or.inr hbe)
      rw [hres] at h0
      have : (0 : ℚ) = 1 := congrArg Prod.fst h0
      norm_num at this
    refine ⟨ha, hb, ?_⟩
    by_contra hn
    have he : ¬(a = "" ∨ b = "") := by simp [ha, hb]
    have h0 := key "0"
    cases k with
    | name =>
      have h0c : cachedOracleSimilarity "name" "job_title" (oracleConst "0") 0 100000 a b [] =
          (1, []) := h0
      rw [cos_miss "job_title" (oracleConst "0") 0 100000 he hn
          (rfl : scoreLookup "name" a b [] = none),
        semantic_ok 0 100000 (rfl : scoreLookup "name" a b [] = none)
          (show oracleConst "0" (mkPrompt "job_title" a b) = .ok "0" from rfl)] at h0c
      have : parsedScore "0" = 1 := congrArg Prod.fst h0c
      rw [parsedScore_zero] at this
      norm_num at this
    | soft_skill =>
      have h0c : cachedOracleSimilarity "soft_skills" "soft_skill" (oracleConst "0") 0 100000 a b [] =
          (1, []) := h0
      rw [cos_miss "soft_skill" (oracleConst "0") 0 100000 he hn
          (rfl : scoreLookup "soft_skills" a b [] = none),
        semantic_ok 0 100000 (rfl : scoreLookup "soft_skills" a b [] = none)
          (show oracleConst "0" (mkPrompt "soft_skill" a b) = .ok "0" from rfl)] at h0c
      have : parsedScore "0" = 1 := congrArg Prod.fst h0c
      rw [parsedScore_zero] at this
      norm_num at this
    | degree =>
      have h0c : cachedOracleSimilarity "degree_domain" "degree" (oracleConst "0") 0 100000 a b [] =
          (1, []) := h0
      rw [cos_miss "degree" (oracleConst "0") 0 100000 he hn
          (rfl : scoreLookup "degree_domain" a b [] = none),
        semantic_ok 0 100000 (rfl : scoreLookup "degree_domain" a b [] = none)
          (show oracleConst "0" (mkPrompt "degree" a b) = .ok "0" from rfl)] at h0c
      have : parsedScore "0" = 1 := congrArg Prod.fst h0c
      rw [parsedScore_zero] at this
      norm_num at this
    | hard_skill =>
      have h0' : get_hard_skill_similarity (oracleConst "0") 0 100000 a b [] = (1, []) := h0
      rw [ghs_nonempty _ _ _ _ he] at h0'
      cases hrel : check_skills_relations a b with
      | some r =>
        rw [css_rel _ _ _ hn (rfl : scoreLookup "hard_skills" a b [] = none) hrel] at h0'
        have hr1 : r = 1 := congrArg Prod.fst h0'
        have hscan : scanRelations (normalize_text a) (normalize_text b)
            TECH_SKILLS_RELATIONS = some r := by
          unfold check_skills_relations at hrel
          rwa [if_neg hn] at hrel
        rcases scanRelations_values hscan with hv | hv <;> rw [hv] at hr1 <;> norm_num at hr1
      | none =>
        rw [css_norel _ _ _ hn (rfl : scoreLookup "hard_skills" a b [] = none) hrel,
          semantic_ok 0 100000 (rfl : scoreLookup "hard_skills" a b [] = none)
            (show oracleConst "0" (mkPrompt "hard_skill" a b) = .ok "0" from rfl)] at h0'
        have : parsedScore "0" = 1 := congrArg Prod.fst h0'
        rw [parsedScore_zero] at this
        norm_num at this
  · rintro ⟨ha, hb, hn⟩ oracle now maxE cache
    have he : ¬(a = "" ∨ b = "") := by simp [ha, hb]
    cases k with
    | name => exact cos_normEq _ _ _ _ _ _ he hn
    | soft_skill => exact cos_normEq _ _ _ _ _ _ he hn
    | degree => exact cos_normEq _ _ _ _ _ _ he hn
    | hard_skill =>
      show get_hard_skill_similarity oracle now maxE a b cache = (1, cache)
      rw [ghs_nonempty _ _ _ _ he]
      exact css_normEq _ _ _ _ hn

/-- C7 witness: `resolve(name, "Python", "python ")` is 1.0 on an empty cache with
the failing oracle — the shortcut fires before cache and oracle. -/
theorem C7_witness :
    resolve oracleFail 0 100000 .name "Python" "python " [] = (1, ([] : SimCache)) :=
  (C7_exact_match_shortcut .name "Python" "python ").mpr
    ⟨by decide, by decide, by decide⟩ oracleFail 0 100000 []

/-! ### C8 -/

lemma semantic_fst_symm (ct pt a b : String) (oracle : Oracle) (now maxE : ℕ)
    (c : SimCache)
    (hsym : oracle (mkPrompt pt a b) = oracle (mkPrompt pt b a)) :
    (semantic_similarity_chatgpt oracle now maxE a b ct pt c).1 =
      (semantic_similarity_chatgpt oracle now maxE b a ct pt c).1 := by
  cases hsl : scoreLookup ct a b c with
  | some s =>
    have hsl2 : scoreLookup ct b a c = some s := (scoreLookup_comm ct b a c).trans hsl
    rw [semantic_hit oracle now maxE pt hsl, semantic_hit oracle now maxE pt hsl2]
  | none =>
    have hsl2 : scoreLookup ct b a c = none := (scoreLookup_comm ct b a c).trans hsl
    cases ho : oracle (mkPrompt pt a b) with
    | error e =>
      cases e
      have ho2 : oracle (mkPrompt pt b a) = .error () := hsym.symm.trans ho
      rw [semantic_err now maxE hsl ho, semantic_err now maxE hsl2 ho2]
    | ok resp =>
      have ho2 : oracle (mkPrompt pt b a) = .ok resp := hsym.symm.trans ho
      rw [semantic_ok now maxE hsl ho, semantic_ok now maxE hsl2 ho2]

lemma cos_fst_symm (ct pt a b : String) (oracle : Oracle) (now maxE : ℕ)
    (c : SimCache)
    (hsym : oracle (mkPrompt pt a b) = oracle (mkPrompt pt b a)) :
    (cachedOracleSimilarity ct pt oracle now maxE a b c).1 =
      (cachedOracleSimilarity ct pt oracle now maxE b a c).1 := by
  by_cases he : a = "" ∨ b = ""
  · rw [cos_empty ct pt oracle now maxE c he, cos_empty ct pt oracle now maxE c he.symm]
  · have he2 : ¬(b = "" ∨ a = "") := fun hh => he hh.symm
    by_cases hn : normalize_text a = normalize_text b
    · rw [cos_normEq ct pt oracle now maxE c he hn,
        cos_normEq ct pt oracle now maxE c he2 hn.symm]
    · have hn2 : ¬ normalize_text b = normalize_text a := fun hh => hn hh.symm
      cases hsl : scoreLookup ct a b c with
      | some s =>
        have hsl2 : scoreLookup ct b a c = some s := (scoreLookup_comm ct b a c).trans hsl
        rw [cos_hit pt oracle now maxE he hn hsl, cos_hit pt oracle now maxE he2 hn2 hsl2]
      | none =>
        have hsl2 : scoreLookup ct b a c = none := (scoreLookup_comm ct b a c).trans hsl
        rw [cos_miss pt oracle now maxE he hn hsl, cos_miss pt oracle now maxE he2 hn2 hsl2]
        exact semantic_fst_symm ct pt a b oracle now maxE c hsym

lemma css_fst_symm (a b : String) (oracle : Oracle) (now maxE : ℕ) (c : SimCache)
    (hsym : oracle (mkPrompt "hard_skill" a b) = oracle (mkPrompt "hard_skill" b a)) :
    (calculate_skill_similarity oracle now maxE a b c).1 =
      (calculate_skill_similarity oracle now maxE b a c).1 := by
  by_cases hn : normalize_text a = normalize_text b
  · rw [css_normEq oracle now maxE c hn, css_normEq oracle now maxE c hn.symm]
  · have hn2 : ¬ normalize_text b = normalize_text a := fun hh => hn hh.symm
    cases hsl : scoreLookup "hard_skills" a b c with
    | some s =>
      have hsl2 : scoreLookup "hard_skills" b a c = some s :=
        (scoreLookup_comm "hard_skills" b a c).trans hsl
      rw [css_hit oracle now maxE hn hsl, css_hit oracle now maxE hn2 hsl2]
    | none =>
      have hsl2 : scoreLookup "hard_skills" b a c = none :=
        (scoreLookup_comm "hard_skills" b a c).trans hsl
      cases hrel : check_skills_relations a b with
      | some r =>
        have hrel2 : check_skills_relations b a = some r :=
          (check_skills_relations_comm b a).trans hrel
        rw [css_rel oracle now maxE hn hsl hrel, css_rel oracle now maxE hn2 hsl2 hrel2]
      | none =>
        have hrel2 : check_skills_relations b a = none :=
          (check_skills_relations_comm b a).trans hrel
        rw [css_norel oracle now maxE hn hsl hrel, css_norel oracle now maxE hn2 hsl2 hrel2]
        exact semantic_fst_symm "hard_skills" "hard_skill" a b oracle now maxE c hsym

/-- The asymmetric sentry oracle of the C8 counterexample: it answers 0.3 to the
prompt that presents "aa" first and 0.7 to every other prompt. -/
def oracleAsym : Oracle := fun p =>
  if p = mkPrompt "soft_skill" "aa" "bb" then .ok "0.3" else .ok "0.7"

/-- `parsedScore "0.3" = 3/10`. -/
lemma parsedScore_03 : parsedScore "0.3" = 3/10 := by
  simp [parsedScore, findFirstNumber, stripString, stripChars, pyWhitespace,
    findFirstNumberAux, digitsToNat]

/-- `parsedScore "0.7" = 7/10`. -/
lemma parsedScore_07 : parsedScore "0.7" = 7/10 := by
  simp [parsedScore, findFirstNumber, stripString, stripChars, pyWhitespace,
    findFirstNumberAux, digitsToNat]

/-- `parsedScore "0.9" = 9/10`. -/
lemma parsedScore_09 : parsedScore "0.9" = 9/10 := by
  simp [parsedScore, findFirstNumber, stripString, stripChars, pyWhitespace,
    findFirstNumberAux, digitsToNat]

/-- C8 counterexample: on a cold cache the resolver builds the oracle prompt with
the texts in *call order* (not sorted), so an oracle that answers the two swapped
prompts differently makes `resolve(soft_skill, "aa", "bb") = 0.3` but
`resolve(soft_skill, "bb", "aa") = 0.7` — symmetry fails on first resolution. -/
theorem C8_counterexample :
    (resolve oracleAsym 0 100000 .soft_skill "aa" "bb" []).1 = 3/10 ∧
    (resolve oracleAsym 0 100000 .soft_skill "bb" "aa" []).1 = 7/10 ∧
    (3/10 : ℚ) ≠ 7/10 := by
  refine ⟨?_, ?_, by norm_num⟩
  · show (cachedOracleSimilarity "soft_skills" "soft_skill" oracleAsym 0 100000
      "aa" "bb" []).1 = 3/10
    rw [cos_miss "soft_skill" oracleAsym 0 100000 (by decide) (by decide)
        (rfl : scoreLookup "soft_skills" "aa" "bb" [] = none),
      semantic_ok 0 100000 (rfl : scoreLookup "soft_skills" "aa" "bb" [] = none)
        (show oracleAsym (mkPrompt "soft_skill" "aa" "bb") = .ok "0.3" from by
          unfold oracleAsym; rw [if_pos rfl])]
    exact parsedScore_03
  · show (cachedOracleSimilarity "soft_skills" "soft_skill" oracleAsym 0 100000
      "bb" "aa" []).1 = 7/10
    rw [cos_miss "soft_skill" oracleAsym 0 100000 (by decide) (by decide)
        (rfl : scoreLookup "soft_skills" "bb" "aa" [] = none),
      semantic_ok 0 100000 (rfl : scoreLookup "soft_skills" "bb" "aa" [] = none)
        (show oracleAsym (mkPrompt "soft_skill" "bb" "aa") = .ok "0.7" from by
          unfold oracleAsym; rw [if_neg (by decide)])]
    exact parsedScore_07

/-- C8 (amended): resolution is symmetric *given* an oracle that answers the two
swapped prompts identically — the normalization shortcut, the relation table and
the sorted-pair cache key are all symmetric, so the only possible asymmetry is
the oracle fallback, whose prompt presents the texts in call order (see
`C8_counterexample`). -/
theorem C8_symmetric (oracle : Oracle) (now maxE : ℕ)
    (hsym : ∀ pt t1 t2 : String, oracle (mkPrompt pt t1 t2) = oracle (mkPrompt pt t2 t1))
    (k : SimKind) (a b : String) (cache : SimCache) :
    (resolve oracle now maxE k a b cache).1 = (resolve oracle now maxE k b a cache).1 := by
  cases k with
  | name => exact cos_fst_symm "name" "job_title" a b oracle now maxE cache (hsym _ a b)
  | soft_skill =>
    exact cos_fst_symm "soft_skills" "soft_skill" a b oracle now maxE cache (hsym _ a b)
  | degree =>
    exact cos_fst_symm "degree_domain" "degree" a b oracle now maxE cache (hsym _ a b)
  | hard_skill =>
    show (get_hard_skill_similarity oracle now maxE a b cache).1 =
      (get_hard_skill_similarity oracle now maxE b a cache).1
    by_cases he : a = "" ∨ b = ""
    · rw [ghs_empty _ _ _ _ he, ghs_empty _ _ _ _ he.symm]
    · rw [ghs_nonempty _ _ _ _ he, ghs_nonempty _ _ _ _ (fun hh => he hh.symm)]
      exact css_fst_symm a b oracle now maxE cache (hsym _ a b)

/-- C8 witness: with a constant (hence prompt-order-insensitive) oracle,
`resolve(hard_skill, ·, ·)` is symmetric on a concrete uncached pair. -/
theorem C8_witness :
    (resolve (oracleConst "0.4") 5 100000 .hard_skill "pascal" "cobol" []).1 =
      (resolve (oracleConst "0.4") 5 100000 .hard_skill "cobol" "pascal" []).1 :=
  C8_symmetric (oracleConst "0.4") 5 100000
    (by intro pt t1 t2; simp only [oracleConst]) .hard_skill "pascal" "cobol" []

/-! ### C9 -/

lemma cos_idem (ct pt a b : String) (oracle oracle2 : Oracle) (now1 now2 maxE : ℕ)
    (c : SimCache) (hok : ∀ p, ∃ r, oracle p = .ok r) :
    (cachedOracleSimilarity ct pt oracle2 now2 maxE a b
        (cachedOracleSimilarity ct pt oracle now1 maxE a b c).2).1 =
      (cachedOracleSimilarity ct pt oracle now1 maxE a b c).1 := by
  by_cases he : a = "" ∨ b = ""
  · rw [cos_empty ct pt oracle now1 maxE c he]
    show (cachedOracleSimilarity ct pt oracle2 now2 maxE a b c).1 = (0 : ℚ)
    rw [cos_empty ct pt oracle2 now2 maxE c he]
  · by_cases hn : normalize_text a = normalize_text b
    · rw [cos_normEq ct pt oracle now1 maxE c he hn]
      show (cachedOracleSimilarity ct pt oracle2 now2 maxE a b c).1 = (1 : ℚ)
      rw [cos_normEq ct pt oracle2 now2 maxE c he hn]
    · cases hsl : scoreLookup ct a b c with
      | some s =>
        rw [cos_hit pt oracle now1 maxE he hn hsl]
        show (cachedOracleSimilarity ct pt oracle2 now2 maxE a b
          (refreshTimestamp now1 ct (sortedPair a b).1 (sortedPair a b).2 c)).1 = s
        have hsl2 : scoreLookup ct a b
            (refreshTimestamp now1 ct (sortedPair a b).1 (sortedPair a b).2 c) = some s :=
          (scoreLookup_refresh ct a b ct (sortedPair a b).1 (sortedPair a b).2 now1 c).trans hsl
        rw [cos_hit pt oracle2 now2 maxE he hn hsl2]
      | none =>
        obtain ⟨resp, hresp⟩ := hok (mkPrompt pt a b)
        rw [cos_miss pt oracle now1 maxE he hn hsl, semantic_ok now1 maxE hsl hresp]
        show (cachedOracleSimilarity ct pt oracle2 now2 maxE a b
          (save_similarity_to_cache maxE now1 ct a b (parsedScore resp) c)).1 =
            parsedScore resp
        have hsl2 := scoreLookup_save maxE now1 ct a b (parsedScore resp) c
        rw [cos_hit pt oracle2 now2 maxE he hn hsl2]

lemma ghs_idem (a b : String) (oracle oracle2 : Oracle) (now1 now2 maxE : ℕ)
    (c : SimCache) (hok : ∀ p, ∃ r, oracle p = .ok r) :
    (get_hard_skill_similarity oracle2 now2 maxE a b
        (get_hard_skill_similarity oracle now1 maxE a b c).2).1 =
      (get_hard_skill_similarity oracle now1 maxE a b c).1 := by
  by_cases he : a = "" ∨ b = ""
  · rw [ghs_empty oracle now1 maxE c he]
    show (get_hard_skill_similarity oracle2 now2 maxE a b c).1 = (0 : ℚ)
    rw [ghs_empty oracle2 now2 maxE c he]
  · rw [ghs_nonempty oracle now1 maxE c he]
    by_cases hn : normalize_text a = normalize_text b
    · rw [css_normEq oracle now1 maxE c hn]
      show (get_hard_skill_similarity oracle2 now2 maxE a b c).1 = (1 : ℚ)
      rw [ghs_nonempty oracle2 now2 maxE c he, css_normEq oracle2 now2 maxE c hn]
    · cases hsl : scoreLookup "hard_skills" a b c with
      | some s =>
        rw [css_hit oracle now1 maxE hn hsl]
        show (get_hard_skill_similarity oracle2 now2 maxE a b
          (refreshTimestamp now1 "hard_skills" (sortedPair a b).1 (sortedPair a b).2 c)).1 = s
        have hsl2 : scoreLookup "hard_skills" a b
            (refreshTimestamp now1 "hard_skills" (sortedPair a b).1 (sortedPair a b).2 c) =
              some s :=
          (scoreLookup_refresh "hard_skills" a b "hard_skills"
            (sortedPair a b).1 (sortedPair a b).2 now1 c).trans hsl
        rw [ghs_nonempty oracle2 now2 maxE _ he, css_hit oracle2 now2 maxE hn hsl2]
      | none =>
        cases hrel : check_skills_relations a b with
        | some r =>
          rw [css_rel oracle now1 maxE hn hsl hrel]
          show (get_hard_skill_similarity oracle2 now2 maxE a b
            (save_similarity_to_cache maxE now1 "hard_skills" a b r c)).1 = r
          have hsl2 := scoreLookup_save maxE now1 "hard_skills" a b r c
          rw [ghs_nonempty oracle2 now2 maxE _ he, css_hit oracle2 now2 maxE hn hsl2]
        | none =>
          obtain ⟨resp, hresp⟩ := hok (mkPrompt "hard_skill" a b)
          rw [css_norel oracle now1 maxE hn hsl hrel, semantic_ok now1 maxE hsl hresp]
          show (get_hard_skill_similarity oracle2 now2 maxE a b
            (save_similarity_to_cache maxE now1 "hard_skills" a b (parsedScore resp) c)).1 =
              parsedScore resp
          have hsl2 := scoreLookup_save maxE now1 "hard_skills" a b (parsedScore resp) c
          rw [ghs_nonempty oracle2 now2 maxE _ he, css_hit oracle2 now2 maxE hn hsl2]

/-- C9 (amended): provided the first call's oracle request *succeeds* (any
response text counts, parseable or not), a second `resolve` on the same kind and
pair — run against the cache state the first call produced — returns the first
call's score whatever the second call's oracle does (so no second oracle call is
needed).  The proviso is necessary: when the oracle call *errors*, nothing is
cached and the second call consults the oracle again (see `C9_counterexample`). -/
theorem C9_idempotent (oracle oracle2 : Oracle) (now1 now2 maxE : ℕ) (k : SimKind)
    (a b : String) (cache : SimCache) (hok : ∀ p, ∃ r, oracle p = .ok r) :
    (resolve oracle2 now2 maxE k a b (resolve oracle now1 maxE k a b cache).2).1 =
      (resolve oracle now1 maxE k a b cache).1 := by
  cases k with
  | name => exact cos_idem "name" "job_title" a b oracle oracle2 now1 now2 maxE cache hok
  | soft_skill =>
    exact cos_idem "soft_skills" "soft_skill" a b oracle oracle2 now1 now2 maxE cache hok
  | degree =>
    exact cos_idem "degree_domain" "degree" a b oracle oracle2 now1 now2 maxE cache hok
  | hard_skill => exact ghs_idem a b oracle oracle2 now1 now2 maxE cache hok

/-- C9 counterexample: a first resolution whose oracle call errors returns the
neutral 0.5 and caches nothing, so "resolving" the same never-before-seen pair a
second time invokes the oracle again — here the retry answers "0.9", and the
second score 9/10 differs from the first 1/2. -/
theorem C9_counterexample :
    resolve oracleFail 0 100000 .soft_skill "aa" "bb" [] = (1/2, ([] : SimCache)) ∧
    (resolve (oracleConst "0.9") 1 100000 .soft_skill "aa" "bb"
        (resolve oracleFail 0 100000 .soft_skill "aa" "bb" []).2).1 = 9/10 ∧
    (1/2 : ℚ) ≠ 9/10 := by
  refine ⟨rfl, ?_, by norm_num⟩
  show (cachedOracleSimilarity "soft_skills" "soft_skill" (oracleConst "0.9") 1 100000
    "aa" "bb" []).1 = 9/10
  rw [cos_miss "soft_skill" (oracleConst "0.9") 1 100000 (by decide) (by decide)
      (rfl : scoreLookup "soft_skills" "aa" "bb" [] = none),
    semantic_ok 1 100000 (rfl : scoreLookup "soft_skills" "aa" "bb" [] = none)
      (show oracleConst "0.9" (mkPrompt "soft_skill" "aa" "bb") = .ok "0.9" from rfl)]
  exact parsedScore_09

/-- C9 witness: after a successful first resolution (oracle answers "0.3"), the
second call returns the same 0.3 even against the always-failing oracle — the
cache alone answers it. -/
theorem C9_witness :
    (resolve oracleFail 1 100000 .soft_skill "aa" "bb"
        (resolve (oracleConst "0.3") 0 100000 .soft_skill "aa" "bb" []).2).1 =
      (resolve (oracleConst "0.3") 0 100000 .soft_skill "aa" "bb" []).1 :=
  C9_idempotent (oracleConst "0.3") oracleFail 0 1 100000 .soft_skill "aa" "bb" []
    (fun _ => ⟨"0.3", by simp only [oracleConst]⟩)

end SeedTech
